import Mathlib

/-!
Shallow embedding of the GPU transfer engine found in
src/src/device/transfer/mod.rs of the Blaze4D repository, together with
theorems settling the specification claims about it.

Modelling conventions:
- Machine integers (u32 queue family indices, u64 `vk::DeviceSize` offsets and
  sizes, usize lengths) are embedded as `Nat`; none of the claims exercises
  integer overflow, so wrap-around is not modelled.
- Byte slices are `List Nat`; a typed `&[T]` slice is embedded by the list of
  bytes of its in-memory representation (exactly the reinterpretation the code
  performs with `std::slice::from_raw_parts`), so `byte_count = data.length`.
- Vulkan handles (buffers, images, UUIDs, buffer ids, semaphores) are opaque
  and embedded as `Nat`.
- A Rust panic is an explicit outcome constructor (`panicked`) of the result
  type; a panic leaves the memory unchanged because both slicing and
  `copy_from_slice` check before copying anything.
- Methods that mutate through `&mut self` or push onto the shared task queue
  are embedded as state-passing functions returning the updated state.
-/

/-- Vulkan constant `vk::WHOLE_SIZE` (= `u64::MAX`). -/
def Vk.WHOLE_SIZE : Nat := 2 ^ 64 - 1

/-- Vulkan constant `vk::REMAINING_MIP_LEVELS` (= `u32::MAX`). -/
def Vk.REMAINING_MIP_LEVELS : Nat := 2 ^ 32 - 1

/-- Vulkan constant `vk::REMAINING_ARRAY_LAYERS` (= `u32::MAX`). -/
def Vk.REMAINING_ARRAY_LAYERS : Nat := 2 ^ 32 - 1

/-- Vulkan constant `vk::PipelineStageFlags2::TRANSFER` (bit 12). -/
def Vk.PIPELINE_STAGE_2_TRANSFER : Nat := 4096

/-- Vulkan constant `vk::AccessFlags2::TRANSFER_READ` (bit 11). -/
def Vk.ACCESS_2_TRANSFER_READ : Nat := 2048

/-- Vulkan constant `vk::AccessFlags2::TRANSFER_WRITE` (bit 12). -/
def Vk.ACCESS_2_TRANSFER_WRITE : Nat := 4096

/-- Vulkan constant `vk::ImageLayout::UNDEFINED`. -/
def Vk.IMAGE_LAYOUT_UNDEFINED : Nat := 0

/-- Vulkan constant `vk::ImageLayout::GENERAL`. -/
def Vk.IMAGE_LAYOUT_GENERAL : Nat := 1

/-- Embeds `ash::vk::ImageSubresourceRange`. -/
structure ImageSubresourceRange where
  aspect_mask : Nat
  base_mip_level : Nat
  level_count : Nat
  base_array_layer : Nat
  layer_count : Nat
deriving DecidableEq

/-- Embeds `ash::vk::ImageMemoryBarrier2` (the fields the builder sets; fields
the builder leaves untouched default to 0 as in the Vulkan struct). -/
structure ImageMemoryBarrier2 where
  src_stage_mask : Nat
  src_access_mask : Nat
  dst_stage_mask : Nat
  dst_access_mask : Nat
  old_layout : Nat
  new_layout : Nat
  src_queue_family_index : Nat
  dst_queue_family_index : Nat
  image : Nat
  subresource_range : ImageSubresourceRange
deriving DecidableEq

/-- Embeds `ash::vk::BufferMemoryBarrier2` (fields the builder leaves untouched
default to 0 as in the Vulkan struct). -/
structure BufferMemoryBarrier2 where
  src_stage_mask : Nat
  src_access_mask : Nat
  dst_stage_mask : Nat
  dst_access_mask : Nat
  src_queue_family_index : Nat
  dst_queue_family_index : Nat
  buffer : Nat
  offset : Nat
  size : Nat
deriving DecidableEq

/-- Embeds `AcquireError` from src/src/device/transfer/mod.rs. -/
inductive AcquireError where
  | alreadyAvailable
deriving DecidableEq

/-- Embeds `ReleaseError` from src/src/device/transfer/mod.rs. -/
inductive ReleaseError where
  | notAvailable
deriving DecidableEq

/-- Embeds `SyncId` (a newtype over u64). -/
structure SyncId where
  raw : Nat
deriving DecidableEq

/-- Embeds `SyncId::from_raw`. -/
def SyncId.from_raw (raw : Nat) : SyncId := { raw := raw }

/-- Embeds `SyncId::get_raw`. -/
def SyncId.get_raw (s : SyncId) : Nat := s.raw

/-- Embeds `BufferAcquireOp` from src/src/device/transfer/mod.rs. -/
structure BufferAcquireOp where
  buffer : Nat
  offset : Nat
  size : Nat
  src_info : Option (Nat × Nat)
  queue_info : Option (Nat × Nat)
deriving DecidableEq

/-- Embeds `BufferReleaseOp` from src/src/device/transfer/mod.rs. -/
structure BufferReleaseOp where
  buffer : Nat
  offset : Nat
  size : Nat
  dst_info : Option (Nat × Nat)
  queue_info : Option (Nat × Nat)
deriving DecidableEq

/-- Embeds `ImageAvailabilityOp` from src/src/device/transfer/mod.rs. -/
structure ImageAvailabilityOp where
  image : Nat
  aspect_mask : Nat
  local_layout : Nat
  barrier : Option ImageMemoryBarrier2
deriving DecidableEq

/-- Embeds `ImageAvailabilityOp::get_barrier`. -/
def ImageAvailabilityOp.get_barrier (op : ImageAvailabilityOp) :
    Option ImageMemoryBarrier2 :=
  op.barrier

/-- Embeds `BufferTransferRange`. -/
structure BufferTransferRange where
  src_offset : Nat
  dst_offset : Nat
  size : Nat
deriving DecidableEq

/-- Embeds `BufferTransferRanges`. -/
inductive BufferTransferRanges where
  | one (range : BufferTransferRange)
  | multiple (ranges : List BufferTransferRange)
deriving DecidableEq

/-- Embeds `BufferTransferRanges::add_src_offset`. -/
def BufferTransferRanges.add_src_offset :
    BufferTransferRanges → Nat → BufferTransferRanges
  | .one range, src_offset => .one { range with src_offset := range.src_offset + src_offset }
  | .multiple ranges, src_offset =>
    .multiple (ranges.map fun range => { range with src_offset := range.src_offset + src_offset })

/-- Embeds `BufferTransferRanges::add_dst_offset`. -/
def BufferTransferRanges.add_dst_offset :
    BufferTransferRanges → Nat → BufferTransferRanges
  | .one range, dst_offset => .one { range with dst_offset := range.dst_offset + dst_offset }
  | .multiple ranges, dst_offset =>
    .multiple (ranges.map fun range => { range with dst_offset := range.dst_offset + dst_offset })

/-- Embeds `BufferTransferRanges::as_slice`. -/
def BufferTransferRanges.as_slice : BufferTransferRanges → List BufferTransferRange
  | .one range => [range]
  | .multiple ranges => ranges

/-- Embeds `BufferImageTransferRange` (image offsets are i32 triples, extents
u32 triples). -/
structure BufferImageTransferRange where
  buffer_offset : Nat
  buffer_row_length : Nat
  buffer_image_height : Nat
  image_aspect_mask : Nat
  image_mip_level : Nat
  image_base_array_layer : Nat
  image_layer_count : Nat
  image_offset : Int × Int × Int
  image_extent : Nat × Nat × Nat
deriving DecidableEq

/-- Embeds `BufferImageTransferRanges`. -/
inductive BufferImageTransferRanges where
  | one (range : BufferImageTransferRange)
  | multiple (ranges : List BufferImageTransferRange)
deriving DecidableEq

/-- Embeds `BufferImageTransferRanges::as_slice`. -/
def BufferImageTransferRanges.as_slice :
    BufferImageTransferRanges → List BufferImageTransferRange
  | .one range => [range]
  | .multiple ranges => ranges

/-- Embeds `BufferImageTransferRanges::add_buffer_offset`. -/
def BufferImageTransferRanges.add_buffer_offset :
    BufferImageTransferRanges → Nat → BufferImageTransferRanges
  | .one range, offset => .one { range with buffer_offset := range.buffer_offset + offset }
  | .multiple ranges, offset =>
    .multiple (ranges.map fun range => { range with buffer_offset := range.buffer_offset + offset })

/-- Embeds `BufferTransfer` (buffer ids are opaque `Nat`). -/
structure BufferTransfer where
  src_buffer : Nat
  dst_buffer : Nat
  ranges : BufferTransferRanges
deriving DecidableEq

/-- Embeds `BufferToImageTransfer`. -/
structure BufferToImageTransfer where
  src_buffer : Nat
  dst_image : Nat
  ranges : BufferImageTransferRanges
deriving DecidableEq

/-- Embeds `ImageToBufferTransfer`. -/
structure ImageToBufferTransfer where
  src_image : Nat
  dst_buffer : Nat
  ranges : BufferImageTransferRanges
deriving DecidableEq

/-- Embeds the `Task` enum (named `TransferTask` here because `Task` is taken in Lean core) consumed by the worker. The variants used by
mod.rs are taken from their construction sites there; `bufferRelease` and
`imageRelease` stand for the tasks produced by the worker-side
`push_buffer_release_task` / `push_image_release_task` whose definitions
(worker.rs) are not in src/. Semaphore lists are opaque. -/
inductive TransferTask where
  | bufferAcquire (op : BufferAcquireOp) (semaphores : List Nat)
  | imageAcquire (op : ImageAvailabilityOp) (semaphores : List Nat)
  | bufferTransfer (transfer : BufferTransfer)
  | bufferToImageTransfer (transfer : BufferToImageTransfer)
  | imageToBufferTransfer (transfer : ImageToBufferTransfer)
  | flush (id : Nat)
  | stagingRelease (id : Nat)
  | bufferRelease (op : BufferReleaseOp)
  | imageRelease (op : ImageAvailabilityOp)
deriving DecidableEq

/-- Embeds the queue-and-counter part of `Share` relevant to the claims: the
FIFO task queue and the next sync id to mint. -/
structure Share where
  queue : List TransferTask
  next_sync_id : Nat
deriving DecidableEq

/-- Embeds `Share::push_task`: appends one task to the FIFO queue. -/
def Share.push_task (s : Share) (t : TransferTask) : Share :=
  { s with queue := s.queue ++ [t] }

/-- Modelled from the spec: `Share::push_buffer_release_task` lives in
worker.rs, which is not in src/. The spec says a `SyncId` is an opaque
monotonically increasing identifier minted when a release operation is
enqueued; this enqueues the release task and returns the fresh id. -/
def Share.push_buffer_release_task (s : Share) (op : BufferReleaseOp) : Nat × Share :=
  (s.next_sync_id,
   { queue := s.queue ++ [TransferTask.bufferRelease op], next_sync_id := s.next_sync_id + 1 })

/-- Modelled from the spec: `Share::push_image_release_task` lives in
worker.rs, which is not in src/. Same minting discipline as
`Share.push_buffer_release_task`. -/
def Share.push_image_release_task (s : Share) (op : ImageAvailabilityOp) : Nat × Share :=
  (s.next_sync_id,
   { queue := s.queue ++ [TransferTask.imageRelease op], next_sync_id := s.next_sync_id + 1 })

/-- Embeds `Transfer::prepare_buffer_acquire`. First argument is the
`Transfer`'s `queue_family` field. -/
def Transfer.prepare_buffer_acquire (queue_family : Nat) (buffer : Nat)
    (usage : Option (Nat × Nat × Nat)) : BufferAcquireOp :=
  match usage with
  | some (src_stage_mask, src_access_mask, src_queue_family) =>
    { buffer := buffer
      offset := 0
      size := Vk.WHOLE_SIZE
      src_info := some (src_stage_mask, src_access_mask)
      queue_info :=
        if src_queue_family = queue_family then none
        else some (src_queue_family, queue_family) }
  | none =>
    { buffer := buffer, offset := 0, size := Vk.WHOLE_SIZE,
      src_info := none, queue_info := none }

/-- Embeds `Transfer::prepare_buffer_release`. -/
def Transfer.prepare_buffer_release (queue_family : Nat) (buffer : Nat)
    (usage : Option (Nat × Nat × Nat)) : BufferReleaseOp :=
  match usage with
  | some (dst_stage_mask, dst_access_mask, dst_queue_family) =>
    { buffer := buffer
      offset := 0
      size := Vk.WHOLE_SIZE
      dst_info := some (dst_stage_mask, dst_access_mask)
      queue_info :=
        if dst_queue_family = queue_family then none
        else some (queue_family, dst_queue_family) }
  | none =>
    { buffer := buffer, offset := 0, size := Vk.WHOLE_SIZE,
      dst_info := none, queue_info := none }

/-- Embeds `BufferAcquireOp::make_barrier`. A barrier is generated only when a
queue family transfer is necessary; the code then unwraps `src_info`, which is
always `some` for ops built by `prepare_buffer_acquire` (the `none` case would
panic in Rust and is unreachable from the constructor). -/
def BufferAcquireOp.make_barrier (op : BufferAcquireOp) : Option BufferMemoryBarrier2 :=
  match op.queue_info, op.src_info with
  | some (src_queue_family, dst_queue_family), some (src_stage_mask, src_access_mask) =>
    some { buffer := op.buffer
           offset := op.offset
           size := op.size
           src_stage_mask := src_stage_mask
           src_access_mask := src_access_mask
           dst_stage_mask := 0
           dst_access_mask := 0
           src_queue_family_index := src_queue_family
           dst_queue_family_index := dst_queue_family }
  | some _, none => none
  | none, _ => none

/-- Embeds `BufferReleaseOp::make_barrier`. A barrier is generated only when a
queue family transfer is necessary; the code then unwraps `dst_info`, which is
always `some` for ops built by `prepare_buffer_release`. -/
def BufferReleaseOp.make_barrier (op : BufferReleaseOp) : Option BufferMemoryBarrier2 :=
  match op.queue_info, op.dst_info with
  | some (src_queue_family, dst_queue_family), some (dst_stage_mask, dst_access_mask) =>
    some { buffer := op.buffer
           offset := op.offset
           size := op.size
           src_stage_mask := 0
           src_access_mask := 0
           dst_stage_mask := dst_stage_mask
           dst_access_mask := dst_access_mask
           src_queue_family_index := src_queue_family
           dst_queue_family_index := dst_queue_family }
  | some _, none => none
  | none, _ => none

/-- Embeds `Transfer::prepare_image_acquire`. First argument is the
`Transfer`'s `queue_family` field; `usage` carries (stage, access, family,
layout). -/
def Transfer.prepare_image_acquire (queue_family : Nat) (image : Nat)
    (aspect_mask : Nat) (usage : Option (Nat × Nat × Nat × Nat)) :
    ImageAvailabilityOp :=
  match usage with
  | some (stage, access, family, layout) =>
    if layout ≠ Vk.IMAGE_LAYOUT_UNDEFINED ∧
        (family ≠ queue_family ∨ layout ≠ Vk.IMAGE_LAYOUT_GENERAL) then
      { image := image
        aspect_mask := aspect_mask
        local_layout := Vk.IMAGE_LAYOUT_GENERAL
        barrier := some
          { src_stage_mask := stage
            src_access_mask := access
            dst_stage_mask := Vk.PIPELINE_STAGE_2_TRANSFER
            dst_access_mask := Vk.ACCESS_2_TRANSFER_READ ||| Vk.ACCESS_2_TRANSFER_WRITE
            old_layout := layout
            new_layout := Vk.IMAGE_LAYOUT_GENERAL
            src_queue_family_index := family
            dst_queue_family_index := queue_family
            image := image
            subresource_range :=
              { aspect_mask := aspect_mask
                base_mip_level := 0
                level_count := Vk.REMAINING_MIP_LEVELS
                base_array_layer := 0
                layer_count := Vk.REMAINING_ARRAY_LAYERS } } }
    else
      { image := image, aspect_mask := aspect_mask, local_layout := layout, barrier := none }
  | none =>
    { image := image, aspect_mask := aspect_mask,
      local_layout := Vk.IMAGE_LAYOUT_UNDEFINED, barrier := none }

/-- Embeds `Transfer::prepare_image_release`. -/
def Transfer.prepare_image_release (queue_family : Nat) (image : Nat)
    (aspect_mask : Nat) (usage : Option (Nat × Nat × Nat × Nat)) :
    ImageAvailabilityOp :=
  match usage with
  | some (stage, access, family, layout) =>
    if layout ≠ Vk.IMAGE_LAYOUT_UNDEFINED ∧ family ≠ queue_family then
      { image := image
        aspect_mask := aspect_mask
        local_layout := Vk.IMAGE_LAYOUT_GENERAL
        barrier := some
          { src_stage_mask := Vk.PIPELINE_STAGE_2_TRANSFER
            src_access_mask := Vk.ACCESS_2_TRANSFER_READ ||| Vk.ACCESS_2_TRANSFER_WRITE
            dst_stage_mask := stage
            dst_access_mask := access
            old_layout := Vk.IMAGE_LAYOUT_GENERAL
            new_layout := layout
            src_queue_family_index := queue_family
            dst_queue_family_index := family
            image := image
            subresource_range :=
              { aspect_mask := aspect_mask
                base_mip_level := 0
                level_count := Vk.REMAINING_MIP_LEVELS
                base_array_layer := 0
                layer_count := Vk.REMAINING_ARRAY_LAYERS } } }
    else
      { image := image, aspect_mask := aspect_mask, local_layout := layout, barrier := none }
  | none =>
    { image := image, aspect_mask := aspect_mask,
      local_layout := Vk.IMAGE_LAYOUT_UNDEFINED, barrier := none }

/-- Embeds `Transfer::acquire_buffer`: pushes a `BufferAcquire` task and
returns `Ok(())` unconditionally. -/
def Transfer.acquire_buffer (s : Share) (op : BufferAcquireOp)
    (semaphores : List Nat) : Except AcquireError Unit × Share :=
  (Except.ok (), s.push_task (TransferTask.bufferAcquire op semaphores))

/-- Embeds `Transfer::release_buffer`: pushes the release task and wraps the
returned id in `Ok` unconditionally. -/
def Transfer.release_buffer (s : Share) (op : BufferReleaseOp) :
    Except ReleaseError SyncId × Share :=
  let r := s.push_buffer_release_task op
  (Except.ok (SyncId.from_raw r.1), r.2)

/-- Embeds `Transfer::make_image_available`: pushes an `ImageAcquire` task and
returns `Ok(())` unconditionally. -/
def Transfer.make_image_available (s : Share) (op : ImageAvailabilityOp)
    (semaphores : List Nat) : Except AcquireError Unit × Share :=
  (Except.ok (), s.push_task (TransferTask.imageAcquire op semaphores))

/-- Embeds `Transfer::release_image`: pushes the release task and wraps the
returned id in `Ok` unconditionally. -/
def Transfer.release_image (s : Share) (op : ImageAvailabilityOp) :
    Except ReleaseError SyncId × Share :=
  let r := s.push_image_release_task op
  (Except.ok (SyncId.from_raw r.1), r.2)

/-- Embeds `Transfer::flush`: pushes a `Flush` task carrying the raw id. -/
def Transfer.flush (s : Share) (id : SyncId) : Share :=
  s.push_task (TransferTask.flush id.get_raw)

/-- Embeds `StagingMemory`: the lease's mapped byte range, the staging
allocation's UUID, and the allocation's offset inside the backing buffer. -/
structure StagingMemory where
  memory : List Nat
  memory_id : Nat
  buffer_offset : Nat
deriving DecidableEq

/-- Outcome of `StagingMemory::write_offset`: `Some(byte_count)`, `None`
(data does not fit), or a Rust panic. -/
inductive WriteOutcome where
  | ok (byte_count : Nat)
  | doesNotFit
  | panicked
deriving DecidableEq

/-- Outcome of `StagingMemory::read_offset`: `Ok` carrying the bytes read into
the out slice, `Err(())`, or a Rust panic. -/
inductive ReadOutcome where
  | ok (out : List Nat)
  | err
  | panicked
deriving DecidableEq

/-- Embeds `StagingMemory::write_offset` with `data` given as its byte
representation. The code computes `byte_count = data.len() * size_of::<T>()`,
returns `None` when `offset + byte_count > self.memory.len()`, and otherwise
executes `self.memory[offset..byte_count].copy_from_slice(src)`: slicing
panics when `offset > byte_count`, and `copy_from_slice` panics when the
destination length `byte_count - offset` differs from the source length
`byte_count`. Both panics happen before any byte is copied. -/
def StagingMemory.write_offset (sm : StagingMemory) (data : List Nat)
    (offset : Nat) : WriteOutcome × StagingMemory :=
  if sm.memory.length < offset + data.length then
    (.doesNotFit, sm)
  else if data.length < offset then
    (.panicked, sm)
  else if data.length - offset ≠ data.length then
    (.panicked, sm)
  else
    (.ok data.length,
     { sm with memory := sm.memory.take offset ++ data ++ sm.memory.drop data.length })

/-- Embeds `StagingMemory::write` (`write_offset` at offset 0). -/
def StagingMemory.write (sm : StagingMemory) (data : List Nat) :
    WriteOutcome × StagingMemory :=
  sm.write_offset data 0

/-- Embeds `StagingMemory::read_offset` with the out slice given by its byte
length. The code computes `byte_count = data.len() * size_of::<T>()`, returns
`Err(())` when `offset + byte_count > self.memory.len()`, and otherwise copies
`&self.memory[offset..byte_count]` into the out slice: slicing panics when
`offset > byte_count`, and `copy_from_slice` panics when the source length
`byte_count - offset` differs from the out length `byte_count`. -/
def StagingMemory.read_offset (sm : StagingMemory) (out_len : Nat)
    (offset : Nat) : ReadOutcome :=
  if sm.memory.length < offset + out_len then
    .err
  else if out_len < offset then
    .panicked
  else if out_len - offset ≠ out_len then
    .panicked
  else
    .ok ((sm.memory.drop offset).take (out_len - offset))

/-- Composition the round-trip claim is about: `write_offset(data, offset)`
followed by `read_offset` into an out slice of the same byte length at the
same offset; `some out` when both calls succeed. -/
def StagingMemory.round_trip (sm : StagingMemory) (data : List Nat)
    (offset : Nat) : Option (List Nat) :=
  match sm.write_offset data offset with
  | (.ok _, sm2) =>
    match sm2.read_offset data.length offset with
    | .ok out => some out
    | _ => none
  | _ => none

/-- Embeds `StagingMemory::copy_to_buffer`: biases the caller ranges by the
lease's backing-buffer offset on the source side and enqueues a
`BufferTransfer` task reading from the staging buffer. -/
def StagingMemory.copy_to_buffer (sm : StagingMemory) (s : Share)
    (dst_buffer : Nat) (ranges : BufferTransferRanges) : Share :=
  s.push_task (TransferTask.bufferTransfer
    { src_buffer := sm.memory_id
      dst_buffer := dst_buffer
      ranges := ranges.add_src_offset sm.buffer_offset })

/-- Embeds `StagingMemory::copy_from_buffer`: biases the caller ranges by the
lease's backing-buffer offset on the destination side and enqueues a
`BufferTransfer` task writing into the staging buffer. -/
def StagingMemory.copy_from_buffer (sm : StagingMemory) (s : Share)
    (src_buffer : Nat) (ranges : BufferTransferRanges) : Share :=
  s.push_task (TransferTask.bufferTransfer
    { src_buffer := src_buffer
      dst_buffer := sm.memory_id
      ranges := ranges.add_dst_offset sm.buffer_offset })

/-- Embeds `StagingMemory::copy_to_image`: biases the caller ranges' buffer
offsets by the lease's backing-buffer offset and enqueues a
`BufferToImageTransfer` task. -/
def StagingMemory.copy_to_image (sm : StagingMemory) (s : Share)
    (dst_image : Nat) (ranges : BufferImageTransferRanges) : Share :=
  s.push_task (TransferTask.bufferToImageTransfer
    { src_buffer := sm.memory_id
      dst_image := dst_image
      ranges := ranges.add_buffer_offset sm.buffer_offset })

/-- Embeds `StagingMemory::flush`, whose body is empty: it takes `&self`, so
neither the lease nor the shared state can change. -/
def StagingMemory.flush (sm : StagingMemory) (s : Share) : Share × StagingMemory :=
  (s, sm)

/-- Embeds `impl Drop for StagingMemory`: pushes one `StagingRelease` task
carrying the lease's memory id. -/
def StagingMemory.drop (sm : StagingMemory) (s : Share) : Share :=
  s.push_task (TransferTask.stagingRelease sm.memory_id)

/-- Boolean view of an `Except` being `Ok`. -/
def isOkResult {ε α : Type} : Except ε α → Bool
  | .ok _ => true
  | .error _ => false

/-- C1: the claim says `write_offset(data, offset)` with `offset + size ≤
lease length` returns `Some(size)` and writes the data bytes at
`offset..offset+size`. The code instead slices `memory[offset..byte_count]`
(not `memory[offset..offset+byte_count]`), so with lease bytes `[0, 0]`, one
data byte `[7]` and offset 1 the in-bounds write panics in `copy_from_slice`
(destination length 0, source length 1) and writes nothing, contradicting the
function's own doc comment. -/
theorem c1_write_offset_panics_at_nonzero_offset :
    StagingMemory.write_offset { memory := [0, 0], memory_id := 0, buffer_offset := 0 } [7] 1
      = (WriteOutcome.panicked, { memory := [0, 0], memory_id := 0, buffer_offset := 0 }) := by
  decide

/-- C2: the claim says `write_offset(data, offset)` followed by `read_offset`
into an out slice of the same length yields the data back for every in-bounds
offset. With lease bytes `[0, 0, 0]`, data `[5, 6]` and offset 1 the write
already panics (the code slices `memory[1..2]`, length 1, and
`copy_from_slice` with a source of length 2 panics), so the round trip cannot
return the data. -/
theorem c2_round_trip_fails_at_nonzero_offset :
    StagingMemory.round_trip { memory := [0, 0, 0], memory_id := 0, buffer_offset := 0 } [5, 6] 1
      = none := by
  decide

/-- C3 counterexample: the claim says `release_buffer` before any acquire
returns `Err(NotAvailable)` and a second `acquire_buffer` without release
returns `Err(AlreadyAvailable)`. On a fresh engine state, releasing buffer 5
that was never acquired returns `Ok(SyncId(0))`, and acquiring buffer 5 twice
in a row returns `Ok(())` the second time as well: both functions wrap their
result in `Ok` unconditionally. -/
theorem c3_release_without_acquire_returns_ok :
    (Transfer.release_buffer { queue := [], next_sync_id := 0 }
        (Transfer.prepare_buffer_release 0 5 none)).1 = Except.ok (SyncId.from_raw 0)
  ∧ (Transfer.acquire_buffer
        (Transfer.acquire_buffer { queue := [], next_sync_id := 0 }
            (Transfer.prepare_buffer_acquire 0 5 none) []).2
        (Transfer.prepare_buffer_acquire 0 5 none) []).1 = Except.ok () :=
  ⟨rfl, rfl⟩

/-- C3 (amended): `acquire_buffer`, `release_buffer`, `make_image_available`
and `release_image` return `Ok` synchronously for every engine state and every
op; the declared `AlreadyAvailable`/`NotAvailable` errors are never produced
by the calls themselves. -/
theorem c3_sync_calls_always_return_ok (s : Share) (bop : BufferAcquireOp)
    (brop : BufferReleaseOp) (iop jop : ImageAvailabilityOp) (sems : List Nat) :
    isOkResult (Transfer.acquire_buffer s bop sems).1 = true
  ∧ isOkResult (Transfer.release_buffer s brop).1 = true
  ∧ isOkResult (Transfer.make_image_available s iop sems).1 = true
  ∧ isOkResult (Transfer.release_image s jop).1 = true :=
  ⟨rfl, rfl, rfl, rfl⟩

/-- C4 counterexample: the claim says equal queue families never yield a
barrier and differing families always do. With transfer family 0, usage family
0 and usage layout 6 (`TRANSFER_SRC_OPTIMAL`), `prepare_image_acquire` does
generate a barrier (a layout transition to `GENERAL` is still needed); and
with usage family 1 but layout `UNDEFINED` it generates none. -/
theorem c4_equal_family_still_generates_image_barrier :
    ((Transfer.prepare_image_acquire 0 0 1 (some (0, 0, 0, 6))).get_barrier).isSome = true
  ∧ (Transfer.prepare_image_acquire 0 0 1 (some (0, 0, 1, 0))).get_barrier = none := by
  constructor <;> decide

/-- C4 (amended): `prepare_image_acquire` yields no barrier exactly when the
usage layout is `UNDEFINED`, or the usage family equals the transfer family
and the layout is already `GENERAL`; `prepare_image_release` yields no barrier
exactly when the layout is `UNDEFINED` or the families are equal. Whenever a
barrier is produced, its source/destination queue family indices are exactly
(supplied family, transfer family) for acquire and (transfer family, supplied
family) for release. -/
theorem c4_image_barrier_queue_families
    (queue_family image aspect stage access family layout : Nat) :
    ((Transfer.prepare_image_acquire queue_family image aspect
        (some (stage, access, family, layout))).get_barrier.map
          fun b => (b.src_queue_family_index, b.dst_queue_family_index))
      = (if layout = Vk.IMAGE_LAYOUT_UNDEFINED ∨
            (family = queue_family ∧ layout = Vk.IMAGE_LAYOUT_GENERAL)
         then none else some (family, queue_family))
  ∧ ((Transfer.prepare_image_release queue_family image aspect
        (some (stage, access, family, layout))).get_barrier.map
          fun b => (b.src_queue_family_index, b.dst_queue_family_index))
      = (if layout = Vk.IMAGE_LAYOUT_UNDEFINED ∨ family = queue_family
         then none else some (queue_family, family)) := by
  constructor
  · simp only [Transfer.prepare_image_acquire, ImageAvailabilityOp.get_barrier,
      Vk.IMAGE_LAYOUT_UNDEFINED, Vk.IMAGE_LAYOUT_GENERAL]
    by_cases hU : layout = 0 <;> by_cases hF : family = queue_family <;>
      by_cases hG : layout = 1 <;> simp [hU, hF, hG]
  · simp only [Transfer.prepare_image_release, ImageAvailabilityOp.get_barrier,
      Vk.IMAGE_LAYOUT_UNDEFINED, Vk.IMAGE_LAYOUT_GENERAL]
    by_cases hU : layout = 0 <;> by_cases hF : family = queue_family <;>
      simp [hU, hF]

/-- C5: every barrier generated by `prepare_image_release` moves the image
from the canonical internal layout `GENERAL` back to the caller-specified
destination layout (old layout `GENERAL`, new layout the usage layout), and a
release barrier exists exactly when the layout is not `UNDEFINED` and the
families differ; every barrier generated by `prepare_image_acquire` has new
layout `GENERAL`, and no acquire barrier is generated exactly when the layout
is `UNDEFINED` (no transition needed) or already compatible (same family and
already `GENERAL`). -/
theorem c5_image_layout_transitions
    (queue_family image aspect stage access family layout : Nat) :
    ((Transfer.prepare_image_release queue_family image aspect
        (some (stage, access, family, layout))).get_barrier.map
          fun b => (b.old_layout, b.new_layout))
      = (if layout = Vk.IMAGE_LAYOUT_UNDEFINED ∨ family = queue_family
         then none else some (Vk.IMAGE_LAYOUT_GENERAL, layout))
  ∧ ((Transfer.prepare_image_acquire queue_family image aspect
        (some (stage, access, family, layout))).get_barrier.map
          fun b => b.new_layout)
      = (if layout = Vk.IMAGE_LAYOUT_UNDEFINED ∨
            (family = queue_family ∧ layout = Vk.IMAGE_LAYOUT_GENERAL)
         then none else some Vk.IMAGE_LAYOUT_GENERAL) := by
  constructor
  · simp only [Transfer.prepare_image_release, ImageAvailabilityOp.get_barrier,
      Vk.IMAGE_LAYOUT_UNDEFINED, Vk.IMAGE_LAYOUT_GENERAL]
    by_cases hU : layout = 0 <;> by_cases hF : family = queue_family <;>
      simp [hU, hF]
  · simp only [Transfer.prepare_image_acquire, ImageAvailabilityOp.get_barrier,
      Vk.IMAGE_LAYOUT_UNDEFINED, Vk.IMAGE_LAYOUT_GENERAL]
    by_cases hU : layout = 0 <;> by_cases hF : family = queue_family <;>
      by_cases hG : layout = 1 <;> simp [hU, hF, hG]

/-- C6: `prepare_buffer_acquire`/`prepare_buffer_release` followed by
`make_barrier` yield no barrier when the usage family equals the transfer
family or when usage is absent; with a differing family they yield a barrier
whose source/destination queue family indices are exactly (supplied family,
transfer family) for acquire and (transfer family, supplied family) for
release. -/
theorem c6_buffer_barrier_elision (queue_family buffer stage access family : Nat) :
    ((Transfer.prepare_buffer_acquire queue_family buffer
        (some (stage, access, family))).make_barrier.map
          fun b => (b.src_queue_family_index, b.dst_queue_family_index))
      = (if family = queue_family then none else some (family, queue_family))
  ∧ (Transfer.prepare_buffer_acquire queue_family buffer none).make_barrier = none
  ∧ ((Transfer.prepare_buffer_release queue_family buffer
        (some (stage, access, family))).make_barrier.map
          fun b => (b.src_queue_family_index, b.dst_queue_family_index))
      = (if family = queue_family then none else some (queue_family, family))
  ∧ (Transfer.prepare_buffer_release queue_family buffer none).make_barrier = none := by
  refine ⟨?_, rfl, ?_, rfl⟩ <;>
    by_cases hF : family = queue_family <;>
    simp [Transfer.prepare_buffer_acquire, Transfer.prepare_buffer_release,
      BufferAcquireOp.make_barrier, BufferReleaseOp.make_barrier, hF]

/-- C7: a `write_offset` or `read_offset` whose offset plus data size in bytes
exceeds the lease length returns the explicit did-not-fit result (`None` for
write, `Err` for read) and leaves every lease byte unchanged; the bounds check
runs before anything is touched. -/
theorem c7_staging_out_of_bounds (sm : StagingMemory) (data : List Nat)
    (out_len offset : Nat)
    (hw : sm.memory.length < offset + data.length)
    (hr : sm.memory.length < offset + out_len) :
    sm.write_offset data offset = (WriteOutcome.doesNotFit, sm)
  ∧ sm.read_offset out_len offset = ReadOutcome.err := by
  constructor
  · simp [StagingMemory.write_offset, hw]
  · simp [StagingMemory.read_offset, hr]

/-- C7 witness: a one-byte lease with a two-byte write and a two-byte read at
offset 0 is out of bounds, and both calls report did-not-fit with the lease
unchanged. -/
theorem c7_staging_out_of_bounds_witness :
    (({ memory := [0], memory_id := 0, buffer_offset := 0 } : StagingMemory).memory.length
        < 0 + [1, 2].length
  ∧ ({ memory := [0], memory_id := 0, buffer_offset := 0 } : StagingMemory).memory.length
        < 0 + 2)
  ∧ (StagingMemory.write_offset { memory := [0], memory_id := 0, buffer_offset := 0 } [1, 2] 0
      = (WriteOutcome.doesNotFit, { memory := [0], memory_id := 0, buffer_offset := 0 })
  ∧ StagingMemory.read_offset { memory := [0], memory_id := 0, buffer_offset := 0 } 2 0
      = ReadOutcome.err) :=
  ⟨⟨by decide, by decide⟩,
   c7_staging_out_of_bounds { memory := [0], memory_id := 0, buffer_offset := 0 }
     [1, 2] 2 0 (by decide) (by decide)⟩

/-- C8: `copy_to_buffer` enqueues exactly one `BufferTransfer` whose source is
the lease's staging buffer and whose ranges have the lease's backing-buffer
offset added to every `src_offset` with `dst_offset` and `size` unchanged;
`copy_from_buffer` adds the offset to every `dst_offset` leaving `src_offset`
and `size` unchanged; `copy_to_image` enqueues one `BufferToImageTransfer`
adding the offset to every `buffer_offset` leaving all image fields
unchanged. -/
theorem c8_copy_tasks_bias_ranges (sm : StagingMemory) (s : Share)
    (dst_buffer src_buffer dst_image : Nat)
    (ranges : BufferTransferRanges) (iranges : BufferImageTransferRanges) :
    (sm.copy_to_buffer s dst_buffer ranges).queue
      = s.queue ++ [TransferTask.bufferTransfer
          { src_buffer := sm.memory_id, dst_buffer := dst_buffer,
            ranges := ranges.add_src_offset sm.buffer_offset }]
  ∧ (ranges.add_src_offset sm.buffer_offset).as_slice
      = ranges.as_slice.map (fun r =>
          ({ src_offset := r.src_offset + sm.buffer_offset,
             dst_offset := r.dst_offset, size := r.size } : BufferTransferRange))
  ∧ (sm.copy_from_buffer s src_buffer ranges).queue
      = s.queue ++ [TransferTask.bufferTransfer
          { src_buffer := src_buffer, dst_buffer := sm.memory_id,
            ranges := ranges.add_dst_offset sm.buffer_offset }]
  ∧ (ranges.add_dst_offset sm.buffer_offset).as_slice
      = ranges.as_slice.map (fun r =>
          ({ src_offset := r.src_offset,
             dst_offset := r.dst_offset + sm.buffer_offset, size := r.size } : BufferTransferRange))
  ∧ (sm.copy_to_image s dst_image iranges).queue
      = s.queue ++ [TransferTask.bufferToImageTransfer
          { src_buffer := sm.memory_id, dst_image := dst_image,
            ranges := iranges.add_buffer_offset sm.buffer_offset }]
  ∧ (iranges.add_buffer_offset sm.buffer_offset).as_slice
      = iranges.as_slice.map (fun r =>
          ({ buffer_offset := r.buffer_offset + sm.buffer_offset,
             buffer_row_length := r.buffer_row_length,
             buffer_image_height := r.buffer_image_height,
             image_aspect_mask := r.image_aspect_mask,
             image_mip_level := r.image_mip_level,
             image_base_array_layer := r.image_base_array_layer,
             image_layer_count := r.image_layer_count,
             image_offset := r.image_offset,
             image_extent := r.image_extent } : BufferImageTransferRange)) := by
  refine ⟨rfl, ?_, rfl, ?_, rfl, ?_⟩
  · cases ranges <;> rfl
  · cases ranges <;> rfl
  · cases iranges <;> rfl

/-- C9: destroying a staging lease enqueues exactly one `StagingRelease` task
carrying the lease's memory id: the destructor appends that one task to the
shared queue and nothing else. -/
theorem c9_drop_enqueues_staging_release (sm : StagingMemory) (s : Share) :
    (sm.drop s).queue = s.queue ++ [TransferTask.stagingRelease sm.memory_id] :=
  rfl

/-- C10: `StagingMemory::flush` has an empty body: it enqueues no task and
changes neither the lease nor the shared engine state. -/
theorem c10_staging_flush_is_noop (sm : StagingMemory) (s : Share) :
    sm.flush s = (s, sm) :=
  rfl
